import Mathlib

/-!
Verification of the InferiaLLM inference-gateway request pipeline and the
orchestration control plane, as a shallow embedding in Lean 4.

Python dictionaries/objects become Lean structures; awaited network calls
become explicit parameters carrying the remote service's reply; raised
`HTTPException`s become the `Except` error channel; machine side effects
(database rows, outbox entries, event-bus publications) are threaded as
explicit state.  Python truthiness on optional strings is modelled by
`pyTruthy`; Python's `int()` truncation on non-negative floats by `pyTrunc`
on rationals.

Sources embedded:
  * `inferia/gateways/inference_gateway/core/service.py`
    (`GatewayService.resolve_context`, `scan_input`, `_build_full_url`)
  * `apps/inference-gateway/core/orchestrator.py`
    (`OrchestrationService.handle_completion`)
  * `inferia/services/filtration/gateway/router.py`
    (`resolve_inference_context`)
  * `inferia/services/orchestration/services/model_deployment/controller.py`
    (`deploy_model`, `request_delete`)
  * `inferia/services/orchestration/services/model_deployment/worker.py`
    (`handle_deploy_requested`)
  * `inferia/services/orchestration/services/inventory_manager/http.py`
    (`heartbeat` deployment-state synchronisation)
  * `inferia/services/inference/core/concurrency_limiter.py`
    (`UpstreamConcurrencyLimiter.limit`)
-/

/-- A chat message, the element type of the request's `messages` list. -/
structure Message where
  role : String
  content : String
deriving Repr, DecidableEq

/-- One entry of a scan result's `violations` list (only the `scanner`
field is read by the gateway). -/
structure Violation where
  scanner : String
deriving Repr, DecidableEq

/-- The filtration service's reply to `scan_content`.  `is_valid` defaults
to `True` in the Python (`scan_result.get("is_valid", True)`); an absent
key is modelled by constructing the record with `is_valid := true`. -/
structure ScanResult where
  is_valid : Bool := true
  violations : List Violation := []
  sanitized_text : Option String := none
deriving Repr, DecidableEq

/-- A raised `fastapi.HTTPException`: status code, the `error` field of a
dict detail (if the detail was a dict), the human message, and response
headers. -/
structure HttpError where
  status : Nat
  error : Option String := none
  message : String := ""
  headers : List (String × String) := []
deriving Repr, DecidableEq

/-- Python truthiness of an optional string: `None` and `""` are falsy. -/
def pyTruthy (o : Option String) : Bool :=
  (o.getD "") ≠ ""

/-- Python `int()` applied to a float: truncation toward zero (here on a
rational stand-in for the float). -/
def pyTrunc (q : ℚ) : ℤ :=
  if 0 ≤ q then ⌊q⌋ else -⌊-q⌋

/-- The guardrail configuration dict as read by `GatewayService.scan_input`
(`guardrail_cfg.get("enabled")`, `guardrail_cfg.get("pii_enabled")`). -/
structure GuardrailCfg where
  enabled : Bool := false
  pii_enabled : Bool := false
deriving Repr, DecidableEq

/-- The `blocking_map` dict of `GatewayService.scan_input`: scanner name to
friendly error message, `none` when the scanner has no entry. -/
def blocking_map : String → Option String
  | "Toxicity" => some "Toxicity found"
  | "PromptInjection" => some "Prompt injection found"
  | "Secrets" => some "Secrets detected"
  | "Code" => some "Code injection detected"
  | "LlamaGuard" => some "Safety violation found (Llama Guard)"
  | "Lakera" => some "Lakera Guard detected a violation"
  | _ => none

/-- The friendly message for a blocking violation:
`blocking_map.get(scanner_name, f"Safety violation found: {scanner_name}")`. -/
def friendlyMessage (scanner : String) : String :=
  (blocking_map scanner).getD ("Safety violation found: " ++ scanner)

/-- `for m in reversed(messages): if m["role"] == "user": m["content"] = s; break`
on the reversed list (so: replace the content of the first user message). -/
def sanitizeFirstUser : List Message → String → List Message
  | [], _ => []
  | m :: rest, s =>
      if m.role = "user" then { m with content := s } :: rest
      else m :: sanitizeFirstUser rest s

/-- The sanitization applied by `scan_input`: rewrite the content of the
last `role == "user"` message to the sanitized text. -/
def sanitizeLastUser (messages : List Message) (s : String) : List Message :=
  (sanitizeFirstUser messages.reverse s).reverse

/-- `GatewayService.scan_input` (service.py lines 74-140).  `scanResp` is
the filtration service's reply to the scan request; the returned `Bool`
records whether that scan request was issued at all.  Raised 400s go to the
error channel. -/
def scan_input (messages : List Message) (cfg : GuardrailCfg)
    (scanResp : ScanResult) : Except HttpError (List Message × Bool) :=
  if !cfg.enabled && !cfg.pii_enabled then
    .ok (messages, false)
  else
    let input_text :=
      match messages.getLast? with
      | some m => if m.role = "user" then m.content else ""
      | none => ""
    if input_text = "" then
      .ok (messages, false)
    else
      if !scanResp.is_valid then
        match scanResp.violations with
        | [] =>
            .error { status := 400, error := some "guardrail_violation",
                     message := "Input violated guardrails" }
        | v :: _ =>
            .error { status := 400, error := some "guardrail_violation",
                     message := friendlyMessage v.scanner }
      else
        if pyTruthy scanResp.sanitized_text then
          .ok (sanitizeLastUser messages (scanResp.sanitized_text.getD ""), true)
        else
          .ok (messages, true)

/-- The deployment dict inside a resolved context, restricted to the fields
the orchestrator reads on the paths embedded here. -/
structure DeploymentCtx where
  endpoint : Option String := none
deriving Repr, DecidableEq

/-- The `rate_limit_config` dict: `enabled` defaults to `True`
(`rate_limit_config.get("enabled", True)`), `rpm` to `0`. -/
structure RateLimitCfg where
  enabled : Bool := true
  rpm : Int := 0
deriving Repr, DecidableEq

/-- The filtration client's resolved context as consumed by the gateway:
`valid`/`error` plus the configuration bundles `handle_completion`
destructures.  `none` for `rate_limit_config` covers both an absent key and
a falsy (empty) dict. -/
structure Context where
  valid : Bool
  error : Option String := none
  deployment : DeploymentCtx := {}
  guardrail_config : Option GuardrailCfg := none
  rag_enabled : Bool := false
  template_enabled : Bool := false
  rate_limit_config : Option RateLimitCfg := none
deriving Repr, DecidableEq

/-- `GatewayService.resolve_context` (service.py lines 14-22): any context
with `valid` falsy raises `HTTPException(401, context.get("error",
"Unauthorized"))`; otherwise the context is returned. -/
def resolve_context (context : Context) : Except HttpError Context :=
  if !context.valid then
    .error { status := 401, message := context.error.getD "Unauthorized" }
  else
    .ok context

/-- `GatewayService.process_prompt` as used from `handle_completion`: with
both RAG and templating disabled the messages are returned unchanged; when
either is enabled, the filtration call's outcome `svc` decides — any error
fails closed as `500`. -/
def process_prompt (messages : List Message) (ragEnabled templateEnabled : Bool)
    (svc : Except Unit (List Message)) : Except HttpError (List Message) :=
  if !ragEnabled && !templateEnabled then
    .ok messages
  else
    match svc with
    | .error _ => .error { status := 500, message := "Prompt processing failed" }
    | .ok ms => .ok ms

/-- The upstream request the orchestrator hands to step 7 (execute
request); producing a value of this type is what "calling the upstream
provider" means in this embedding. -/
structure UpstreamCall where
  endpoint_url : String
  messages : List Message
deriving Repr, DecidableEq

/-- The completion request body fields validated by `handle_completion`:
`body.get("model")` and `body.get("messages", [])`. -/
structure CompletionRequest where
  model : Option String := none
  messages : List Message := []
deriving Repr, DecidableEq

/-- `check_quota`'s failure, surfaced when the awaited quota task raises
(the quota service itself is external to the gateway). -/
def quotaError : HttpError :=
  { status := 429, error := some "quota_exceeded", message := "Quota exceeded" }

/-- `OrchestrationService.handle_completion` (orchestrator.py lines 24-166)
up to and including step 7's dispatch of the upstream request.  The awaited
environment is passed explicitly: `rateAllowed`/`waitTime` are
`rate_limiter.check_limit`'s reply, `quotaOk` whether `check_quota`
succeeded, `scanResp` the guardrail scan reply, `promptSvc` the prompt
processing service's outcome.  The second component of the result records
whether the upstream provider was called. -/
def handle_completion (req : CompletionRequest) (context : Context)
    (rateAllowed : Bool) (waitTime : ℚ) (quotaOk : Bool)
    (scanResp : ScanResult) (promptSvc : Except Unit (List Message)) :
    Except HttpError UpstreamCall × Bool :=
  if !pyTruthy req.model || req.messages.isEmpty then
    (.error { status := 400, message := "Model and messages are required" }, false)
  else
    match resolve_context context with
    | .error e => (.error e, false)
    | .ok ctx =>
      let guardrail_cfg := ctx.guardrail_config.getD {}
      let rateLimited :=
        match ctx.rate_limit_config with
        | some rl => rl.enabled && rl.rpm > 0 && !rateAllowed
        | none => false
      if rateLimited then
        let rpm := (ctx.rate_limit_config.getD {}).rpm
        (.error { status := 429,
                  message := "Rate limit exceeded. Limit: " ++ toString rpm ++ " RPM.",
                  headers := [("Retry-After", toString (pyTrunc waitTime + 1))] }, false)
      else
        if !quotaOk then
          (.error quotaError, false)
        else
          match scan_input req.messages guardrail_cfg scanResp with
          | .error e => (.error e, false)
          | .ok (messages, _) =>
            match process_prompt messages ctx.rag_enabled ctx.template_enabled promptSvc with
            | .error e => (.error e, false)
            | .ok messages =>
              if !pyTruthy ctx.deployment.endpoint then
                (.error { status := 500,
                          message := "Deployment misconfiguration: No endpoint_url provided" },
                 false)
              else
                (.ok { endpoint_url := (ctx.deployment.endpoint.getD "").trim,
                       messages := messages }, true)

/-- The kinds of context-resolution failure distinguished by the spec's
error table: unknown API key, key valid but not permitted for the model,
and model name unknown in the caller's org. -/
inductive ResolveFailure
  | invalidKey
  | keyModelMismatch
  | modelNotFound
deriving Repr, DecidableEq

/-- Modelled from the spec: `policy_engine.resolve_context` (module
`policy.engine`, absent from the sources) — per spec §4.2 its output is
"Resolved Context or `{valid:false, error}`", i.e. every failure kind is
reported through the `valid`/`error` pair, not through an HTTP status. -/
def policyResolve (outcome : Option ResolveFailure) : Bool × Option String :=
  match outcome with
  | none => (true, none)
  | some .invalidKey => (false, some "Invalid API key")
  | some .keyModelMismatch => (false, some "API key not permitted for this model")
  | some .modelNotFound => (false, some "Model not found")

/-- `resolve_inference_context` (filtration router.py lines 309-344): a
policy result with `valid` false is returned as a `ResolveContextResponse`
with `valid=False` and the error string — an HTTP 200 reply, carrying no
distinguishing status code. -/
def resolve_inference_context (outcome : Option ResolveFailure) : Context :=
  let pr := policyResolve outcome
  if !pr.1 then
    { valid := false, error := pr.2 }
  else
    { valid := true }

/-- The HTTP status the inference gateway produces for a given
context-resolution outcome: the filtration reply is fed through
`GatewayService.resolve_context`; `none` means resolution succeeded. -/
def gatewayResolveStatus (outcome : Option ResolveFailure) : Option Nat :=
  match resolve_context (resolve_inference_context outcome) with
  | .error e => some e.status
  | .ok _ => none

/-- One persisted deployment row, restricted to the fields the controller
reads and writes. -/
structure DeploymentRow where
  state : String
  endpoint : Option String := none
deriving Repr, DecidableEq

/-- One transactional-outbox entry
(`outbox.enqueue(aggregate_type=..., aggregate_id=..., event_type=...)`). -/
structure OutboxEvent where
  aggregate_id : Nat
  event_type : String
deriving Repr, DecidableEq

/-- One event-bus publication (`event_bus.publish(topic, payload)`). -/
structure BusEvent where
  topic : String
  deployment_id : Nat
deriving Repr, DecidableEq

/-- The controller's observable state: deployment rows keyed by id, the
outbox table, and the list of events published on the bus. -/
structure CtrlState where
  deployments : List (Nat × DeploymentRow) := []
  outbox : List OutboxEvent := []
  published : List BusEvent := []
deriving Repr, DecidableEq

/-- `self.deployments.get(deployment_id)`. -/
def getDeployment (st : CtrlState) (id : Nat) : Option DeploymentRow :=
  (st.deployments.find? (fun p => p.1 == id)).map (·.2)

/-- `self.deployments.update_state(deployment_id, new_state)`. -/
def updateStateRow (st : CtrlState) (id : Nat) (s : String) : CtrlState :=
  { st with deployments :=
      st.deployments.map (fun p => if p.1 == id then (p.1, { p.2 with state := s }) else p) }

/-- `ModelDeploymentController.request_delete` (controller.py lines
212-241).  The early return for `TERMINATED`/`TERMINATING` states is the
no-op branch; otherwise the state is set to `TERMINATING` and the outbox
entry written in one transaction, then `model.terminate.requested` is
published on the bus. -/
def request_delete (st : CtrlState) (id : Nat) : Except String CtrlState :=
  match getDeployment st id with
  | none => .error "Deployment not found"
  | some d =>
    if d.state = "TERMINATED" ∨ d.state = "TERMINATING" then
      .ok st
    else
      let st : CtrlState := updateStateRow st id "TERMINATING"
      let st : CtrlState := { st with outbox :=
        st.outbox ++ [{ aggregate_id := id, event_type := "model.deployment.terminate" }] }
      .ok { st with published :=
        st.published ++ [{ topic := "model.terminate.requested", deployment_id := id }] }

/-- `ModelDeploymentController.deploy_model` (controller.py lines 72-191),
with the awaited repository calls' failure modes injected: `poolOk` is the
pool-existence/activity check, and `failCreate`/`failEnqueue`/`failPublish`
make the corresponding awaited call inside the `transaction()` block raise.
An exception escaping the block rolls the row and outbox entry back (and
the raising publish delivered nothing), so on failure the state is returned
unchanged with no deployment id. -/
def deploy_model (st : CtrlState) (id : Nat) (workload_type : String)
    (endpoint : Option String) (poolOk failCreate failEnqueue failPublish : Bool) :
    CtrlState × Option Nat :=
  if !poolOk then
    (st, none)
  else
    let is_external := workload_type = "external"
    let initial_state := if is_external then "RUNNING" else "PENDING"
    if failCreate then
      (st, none)
    else if failEnqueue then
      (st, none)
    else
      let st' := { st with
        deployments := st.deployments ++ [(id, { state := initial_state, endpoint := endpoint })],
        outbox := st.outbox ++ [{ aggregate_id := id, event_type := "model.deployment.requested" }] }
      if !is_external then
        if failPublish then
          (st, none)
        else
          ({ st' with published :=
              st'.published ++ [{ topic := "model.deploy.requested", deployment_id := id }] },
           some id)
      else
        (st', some id)

/-- `EPHEMERAL_FAILURE_THRESHOLD_MINUTES` default
(`os.getenv("EPHEMERAL_FAILURE_THRESHOLD_MINUTES", "10")`). -/
def EPHEMERAL_FAILURE_THRESHOLD_MINUTES : ℤ := 10

/-- Python `str.lower()` (ASCII case folding on the character data). -/
def pyLower (s : String) : String :=
  ⟨s.data.map Char.toLower⟩

/-- The deployment-state synchronisation of the `heartbeat` handler
(inventory_manager/http.py lines 70-120) for one deployment linked to the
reporting node.  `payloadState` is the heartbeat's `state` field;
`ephemeral` is `capabilities.is_ephemeral` when `get_adapter` succeeded and
`none` when it raised (the `except` branch keeps the default logic);
`created_at`/`now` are timestamps in minutes.  The result is the state
written by `update_state`, or `none` when no update happens. -/
def heartbeatSyncState (payloadState : String) (ephemeral : Option Bool)
    (deploymentState : String) (created_at : Option ℚ) (now : ℚ)
    (threshold : ℤ) : Option String :=
  if pyLower payloadState = "terminated" ∨ pyLower payloadState = "unhealthy"
      ∨ pyLower payloadState = "failed" then
    let target := if pyLower payloadState = "terminated" then "TERMINATED" else "FAILED"
    if deploymentState = "TERMINATED" ∨ deploymentState = "FAILED"
        ∨ deploymentState = "STOPPED" then
      none
    else
      let final :=
        match ephemeral with
        | none => target
        | some e =>
          if e ∧ target = "TERMINATED" then
            match created_at with
            | some c => if now - c < (threshold : ℚ) then "FAILED" else target
            | none => target
          else target
      some (if final = "TERMINATED" then "STOPPED" else final)
  else
    none

/-- `MAX_PROVISION_RETRIES` (worker.py line 13). -/
def MAX_PROVISION_RETRIES : Nat := 4

/-- The provider node description returned by `adapter.provision_node`,
restricted to the fields the worker reads: the simulation-mode marker
(`node_spec["metadata"]["mode"] == "simulation"`) and the optional
`expose_url`. -/
structure NodeSpec where
  simulation : Bool := false
  expose_url : Option String := none
deriving Repr, DecidableEq

/-- The observable repository/adapter calls of the provisioning worker, in
execution order. -/
inductive WorkerAction
  | updateState (s : String)
  | updateEndpoint (url : String)
  | registerNode
  | attachRuntime
deriving Repr, DecidableEq

/-- The expose-URL fallback chain of `handle_deploy_requested` (worker.py
lines 188-195): a falsy or `"-ready"`-suffixed wait result falls back to
the node spec's `expose_url`; a second guard repeats the node-spec fallback
when the result is still falsy. -/
def effectiveExposeUrl (waitUrl nodeSpecUrl : Option String) : Option String :=
  let e :=
    if !pyTruthy waitUrl || (waitUrl.getD "").endsWith "-ready" then
      if pyTruthy waitUrl then waitUrl else nodeSpecUrl
    else
      waitUrl
  if !pyTruthy e && pyTruthy nodeSpecUrl then nodeSpecUrl else e

/-- The awaited environment of one `handle_deploy_requested` run:
`candidates attempt` is whether `fetch_candidate_nodes` returned any node
on that attempt; `metadataHasJob` is the job-definition check (an image or
cmd is present, or the workload is training); `waitUrl` is
`adapter.wait_for_ready`'s reply; `stateAtSafetyCheck` the deployment state
re-read after the wait (`none` when the row is gone); `nodeIdReturned`
whether `register_node` returned an id; `strategyOk` whether the runtime
strategy's `deploy` succeeded. -/
structure ProvisionEnv where
  candidates : Nat → Bool
  metadataHasJob : Bool := true
  nodeSpec : NodeSpec := {}
  waitUrl : Option String := none
  stateAtSafetyCheck : Option String := some "PROVISIONING"
  isEphemeral : Bool := true
  nodeIdReturned : Bool := true
  strategyOk : Bool := true

/-- The placement section of `handle_deploy_requested` (worker.py lines
242-302), reached when the capacity loop broke with candidates. -/
def placementPhase (env : ProvisionEnv) : List WorkerAction :=
  [.updateState "SCHEDULING", .updateState "DEPLOYING"] ++
  (if !env.strategyOk then
     [.updateState "FAILED"]
   else
     [.attachRuntime, .updateState "RUNNING"])

/-- The capacity loop of `handle_deploy_requested` (worker.py lines 80-240)
as the trace of repository/adapter calls it performs, one recursive step
per `for attempt in range(MAX_PROVISION_RETRIES + 1)` iteration (`fuel`
bounds the iteration count).  Note that after registering a node the state
is set to `RUNNING` unconditionally — `update_endpoint` ran before it only
when the effective expose URL was truthy — and that for a non-ephemeral
provider the loop then continues with the next attempt. -/
def provisionAttempt (env : ProvisionEnv) : Nat → Nat → List WorkerAction
  | _, 0 => []
  | attempt, fuel + 1 =>
    if env.candidates attempt then
      placementPhase env
    else if attempt == MAX_PROVISION_RETRIES then
      [.updateState "FAILED"]
    else if !env.metadataHasJob then
      [.updateState "FAILED"]
    else if env.nodeSpec.simulation then
      [.attachRuntime, .updateState "RUNNING"]
    else if env.stateAtSafetyCheck ≠ some "PROVISIONING" then
      []
    else
      let url := effectiveExposeUrl env.waitUrl env.nodeSpec.expose_url
      (if pyTruthy url then [.updateEndpoint (url.getD "")] else []) ++
      [.registerNode, .updateState "RUNNING"] ++
      (if env.isEphemeral then
         (if env.nodeIdReturned then [.attachRuntime] else [])
       else
         provisionAttempt env (attempt + 1) fuel)

/-- `ModelDeploymentWorker.handle_deploy_requested` (worker.py lines
42-307): skip unless the row exists in state `PENDING` and the
`update_state_if` CAS to `PROVISIONING` (`casOk`) wins, then run the
capacity loop. -/
def handle_deploy_requested (d : Option DeploymentRow) (casOk : Bool)
    (env : ProvisionEnv) : List WorkerAction :=
  match d with
  | none => []
  | some row =>
    if row.state ≠ "PENDING" then []
    else if !casOk then []
    else .updateState "PROVISIONING" :: provisionAttempt env 0 (MAX_PROVISION_RETRIES + 1)

/-- Replay one worker action against a deployment row. -/
def applyAction (d : DeploymentRow) : WorkerAction → DeploymentRow
  | .updateState s => { d with state := s }
  | .updateEndpoint u => { d with endpoint := some u }
  | .registerNode => d
  | .attachRuntime => d

/-- Replay a worker trace against a deployment row. -/
def applyActions (d : DeploymentRow) (acts : List WorkerAction) : DeploymentRow :=
  acts.foldl applyAction d

/-- Whether a worker action is an `update_endpoint` call. -/
def isEndpointUpdate : WorkerAction → Bool
  | .updateEndpoint _ => true
  | _ => false

/-- The inference service's upstream-concurrency settings
(inference/config.py lines 85-101). -/
structure LimiterCfg where
  upstream_global_max_in_flight : Int := 0
  upstream_per_deployment_max_in_flight : Int := 64
deriving Repr, DecidableEq

/-- The limiter's semaphore state: available permits of the global
semaphore (`none` when the global limit is disabled) and of each
per-deployment semaphore created so far. -/
structure LimiterState where
  globalAvail : Option Nat
  deploymentAvail : List (String × Nat)
deriving Repr, DecidableEq

/-- `UpstreamConcurrencyLimiter.__init__`: the global semaphore exists only
for a positive `upstream_global_max_in_flight`; no per-deployment
semaphores exist yet. -/
def initLimiterState (cfg : LimiterCfg) : LimiterState :=
  { globalAvail :=
      if cfg.upstream_global_max_in_flight > 0 then
        some cfg.upstream_global_max_in_flight.toNat
      else none,
    deploymentAvail := [] }

/-- Available permits recorded for a deployment key (dictionary lookup in
`self._deployment_semaphores`). -/
def lookupSem : List (String × Nat) → String → Option Nat
  | [], _ => none
  | p :: rest, k => if p.1 = k then some p.2 else lookupSem rest k

/-- Overwrite (or append) the permit count recorded for a key (dictionary
assignment in `self._deployment_semaphores`). -/
def setSem : List (String × Nat) → String → Nat → List (String × Nat)
  | [], k, n => [(k, n)]
  | p :: rest, k, n => if p.1 = k then (p.1, n) :: rest else p :: setSem rest k n

/-- `_get_or_create_deployment_semaphore`: `none` when the per-deployment
limit is `≤ 0`, otherwise the existing semaphore or a fresh one with the
full limit. -/
def getOrCreateSem (cfg : LimiterCfg) (st : LimiterState) (key : String) :
    Option Nat × LimiterState :=
  if cfg.upstream_per_deployment_max_in_flight ≤ 0 then
    (none, st)
  else
    match lookupSem st.deploymentAvail key with
    | some n => (some n, st)
    | none =>
      (some cfg.upstream_per_deployment_max_in_flight.toNat,
       { st with deploymentAvail :=
           setSem st.deploymentAvail key cfg.upstream_per_deployment_max_in_flight.toNat })

/-- The `429` raised by `_acquire_or_timeout` on `asyncio.TimeoutError`. -/
def limiterTimeoutError : HttpError :=
  { status := 429,
    message := "Server is handling too many concurrent requests. Please retry.",
    headers := [("Retry-After", "1")] }

/-- The observable semaphore operations of one `limit` call, in order. -/
inductive LimitEvent
  | acquireGlobal
  | acquireDeployment
  | releaseDeployment
  | releaseGlobal
deriving Repr, DecidableEq

/-- `UpstreamConcurrencyLimiter.limit` (concurrency_limiter.py lines
44-79), covering the acquisitions, the guarded body, and the `finally`
releases.  `gTimeout`/`dTimeout` inject an `asyncio.wait_for` timeout on
the corresponding acquire; an acquire on a semaphore with no available
permit can only end in the timeout (there is no concurrent release inside
one call), so it is folded into the same 429.  The result carries the
outcome, the semaphore state after the `finally` block, and the event
trace. -/
def limit (cfg : LimiterCfg) (st : LimiterState) (key : String)
    (gTimeout dTimeout : Bool) :
    Except HttpError Unit × LimiterState × List LimitEvent :=
  match st.globalAvail with
  | some g =>
    if gTimeout || g == 0 then
      (.error limiterTimeoutError, st, [])
    else
      let st1 : LimiterState := { st with globalAvail := some (g - 1) }
      let pr := getOrCreateSem cfg st1 key
      match pr.1 with
      | some n =>
        if dTimeout || n == 0 then
          (.error limiterTimeoutError,
           { pr.2 with globalAvail := (pr.2.globalAvail).map (· + 1) },
           [.acquireGlobal])
        else
          let stAcq : LimiterState :=
            { pr.2 with deploymentAvail := setSem pr.2.deploymentAvail key (n - 1) }
          let stRelD : LimiterState :=
            { stAcq with deploymentAvail := setSem stAcq.deploymentAvail key n }
          (.ok (), { stRelD with globalAvail := (stRelD.globalAvail).map (· + 1) },
           [.acquireGlobal, .acquireDeployment, .releaseDeployment, .releaseGlobal])
      | none =>
        (.ok (), { pr.2 with globalAvail := (pr.2.globalAvail).map (· + 1) },
         [.acquireGlobal, .releaseGlobal])
  | none =>
    let pr := getOrCreateSem cfg st key
    match pr.1 with
    | some n =>
      if dTimeout || n == 0 then
        (.error limiterTimeoutError, pr.2, [])
      else
        let stAcq : LimiterState :=
          { pr.2 with deploymentAvail := setSem pr.2.deploymentAvail key (n - 1) }
        (.ok (), { stAcq with deploymentAvail := setSem stAcq.deploymentAvail key n },
         [.acquireDeployment, .releaseDeployment])
    | none =>
      (.ok (), pr.2, [])

/-- The effective number of available permits a key's semaphore would offer
(an uncreated semaphore offers the full configured limit; with the limit
disabled there is no semaphore and the count is irrelevant, taken as 0). -/
def effAvail (cfg : LimiterCfg) (st : LimiterState) (k : String) : Nat :=
  (lookupSem st.deploymentAvail k).getD
    (if cfg.upstream_per_deployment_max_in_flight > 0 then
       cfg.upstream_per_deployment_max_in_flight.toNat
     else 0)

/-- `"/v1"` as a character list (URLs are modelled as `List Char`; Python
`str.endswith`/`startswith` become decidable suffix/prefix tests). -/
def segV1 : List Char := "/v1".toList

/-- `"/chat/completions"`. -/
def segChat : List Char := "/chat/completions".toList

/-- `"/messages"`. -/
def segMessages : List Char := "/messages".toList

/-- The vLLM adapter's chat path `"/v1/chat/completions"`. -/
def chatPathV1 : List Char := "/v1/chat/completions".toList

/-- The duplicated-`/v1` segment `"/v1/v1"` the URL builder must avoid. -/
def dupV1 : List Char := "/v1/v1".toList

/-- The duplicated chat suffix `"/chat/completions/chat/completions"`. -/
def dupChat : List Char := "/chat/completions/chat/completions".toList

/-- Python `endpoint_url.rstrip('/')`: drop every trailing `'/'`. -/
def rstripSlash (l : List Char) : List Char :=
  (l.reverse.dropWhile (· == '/')).reverse

/-- `GatewayService._build_full_url` (service.py lines 168-189). -/
def build_full_url (endpoint_url chat_path : List Char) : List Char :=
  let endpoint := rstripSlash endpoint_url
  if decide (segChat <:+ endpoint) || decide (segMessages <:+ endpoint) then
    endpoint
  else if decide (segV1 <:+ endpoint) then
    if decide (segV1 <+: chat_path) then
      endpoint ++ chat_path.drop 3
    else
      endpoint ++ chat_path
  else
    endpoint ++ chat_path

/-- The endpoint shapes of the claim: `base`, `base+/v1`,
`base+/v1/chat/completions` and `base+/messages`, each with and without a
trailing slash. -/
def endpointShapes (base : List Char) : List (List Char) :=
  [base, base ++ ['/'],
   base ++ segV1, base ++ segV1 ++ ['/'],
   base ++ chatPathV1, base ++ chatPathV1 ++ ['/'],
   base ++ segMessages, base ++ segMessages ++ ['/']]

/-- An infix of a concatenation lies in the left part, lies in the right
part, or spans the boundary: a nonempty proper prefix of the pattern is a
suffix of the left part while the rest of the pattern begins the right
part. -/
theorem infix_append_split {pat l r : List Char} (h : pat <:+: l ++ r) :
    pat <:+: l ∨ pat <:+: r ∨
      ∃ k, 0 < k ∧ k < pat.length ∧ pat.take k <:+ l ∧ pat.drop k <+: r := by
  obtain ⟨s, t, hst⟩ := h
  rcases le_or_lt (s.length + pat.length) l.length with hle | hgt
  · left
    have hsp : s ++ pat <+: l ++ r := ⟨t, by simpa [List.append_assoc] using hst⟩
    have hpl : s ++ pat <+: l :=
      (List.isPrefix_append_of_length (by simpa using hle)).mp hsp
    obtain ⟨u, hu⟩ := hpl
    exact ⟨s, u, by simpa [List.append_assoc] using hu⟩
  · rcases le_or_lt l.length s.length with hls | hsl
    · right; left
      have hdrop : (s ++ (pat ++ t)).drop s.length = pat ++ t := List.drop_left s (pat ++ t)
      have hdrop2 : (l ++ r).drop s.length = r.drop (s.length - l.length) := by
        rw [List.drop_append_eq_append_drop, List.drop_eq_nil_of_le hls, List.nil_append]
      have hpt : pat ++ t = r.drop (s.length - l.length) := by
        rw [← hdrop, ← hdrop2]
        congr 1
        simpa [List.append_assoc] using hst
      have hpref : pat <+: r.drop (s.length - l.length) := ⟨t, hpt⟩
      exact hpref.isInfix.trans (List.drop_suffix _ r).isInfix
    · right; right
      obtain ⟨k, hlen⟩ : ∃ k, l.length = s.length + k := ⟨l.length - s.length, by omega⟩
      refine ⟨k, by omega, by omega, ?_, ?_⟩
      · have hl2 : l = s ++ pat.take k := by
          calc l = (l ++ r).take l.length := (List.take_left l r).symm
            _ = (s ++ (pat ++ t)).take (s.length + k) := by
                rw [← hst, List.append_assoc, hlen]
            _ = s ++ (pat ++ t).take k := List.take_append k
            _ = s ++ pat.take k := by
                rw [List.take_append_of_le_length (by omega)]
        exact ⟨s, hl2.symm⟩
      · have hr2 : r = pat.drop k ++ t := by
          calc r = (l ++ r).drop l.length := (List.drop_left l r).symm
            _ = (s ++ (pat ++ t)).drop (s.length + k) := by
                rw [← hst, List.append_assoc, hlen]
            _ = (pat ++ t).drop k := List.drop_append k
            _ = pat.drop k ++ t := List.drop_append_of_le_length (by omega)
        exact ⟨t, hr2.symm⟩

/-- Master exclusion lemma: a pattern that contains the forbidden segment
as a prefix cannot occur in `l ++ r` when the forbidden segment does not
occur in `l`, the pattern does not occur in `r`, and every boundary
straddle would force the forbidden segment to be a suffix of `l`. -/
theorem not_infix_append_of {forb pat l r : List Char}
    (hl : ¬ forb <:+: l) (hfp : forb <+: pat) (hr : ¬ pat <:+: r)
    (hspan : ∀ k, k < pat.length → 0 < k → pat.drop k <+: r → forb <:+ pat.take k) :
    ¬ pat <:+: l ++ r := by
  intro h
  rcases infix_append_split h with h1 | h1 | ⟨k, hk0, hk, htake, hdrop⟩
  · exact hl (hfp.isInfix.trans h1)
  · exact hr h1
  · exact hl ((hspan k hk hk0 hdrop).trans htake).isInfix

/-- `rstrip('/')` removes one explicit trailing slash. -/
theorem rstripSlash_append_slash (l : List Char) :
    rstripSlash (l ++ ['/']) = rstripSlash l := by
  simp [rstripSlash, List.dropWhile_cons]

/-- A list whose last character is not `'/'` is untouched by `rstrip('/')`. -/
theorem rstripSlash_eq_self {l : List Char}
    (h : ∀ c, l.getLast? = some c → c ≠ '/') : rstripSlash l = l := by
  unfold rstripSlash
  cases hl : l.reverse with
  | nil =>
    have : l = [] := by simpa using congrArg List.reverse hl
    simp [this]
  | cons c t =>
    have hlast : l.getLast? = some c := by
      rw [← List.head?_reverse, hl]; rfl
    have hc : (c == '/') = false := by
      simpa using h c hlast
    rw [List.dropWhile_cons, hc]
    simp only [Bool.false_eq_true, if_false]
    calc (c :: t).reverse = l.reverse.reverse := by rw [hl]
      _ = l := List.reverse_reverse l

/-- `rstrip('/')` leaves `l ++ r` untouched when `r` ends in a non-slash
character. -/
theorem rstripSlash_append_eq_self {l r : List Char} (c : Char)
    (hr : r.getLast? = some c) (hc : c ≠ '/') : rstripSlash (l ++ r) = l ++ r := by
  apply rstripSlash_eq_self
  intro c' hc'
  have hne : r ≠ [] := by
    intro h; rw [h] at hr; simp at hr
  have : (l ++ r).getLast? = r.getLast? := by
    rw [List.getLast?_append, hr]; rfl
  rw [this, hr] at hc'
  cases hc'
  exact hc

/-- Evaluation of the URL builder on a clean base (no `/v1`,
`/chat/completions` or `/messages` anywhere in it): the chat path is simply
appended. -/
theorem build_full_url_on_base {e base : List Char}
    (hstrip : rstripSlash e = base)
    (hv : ¬ segV1 <:+: base) (hc : ¬ segChat <:+: base)
    (hm : ¬ segMessages <:+: base) :
    build_full_url e chatPathV1 = base ++ chatPathV1 := by
  have h1 : ¬ segChat <:+ base := fun hsuf => hc hsuf.isInfix
  have h2 : ¬ segMessages <:+ base := fun hsuf => hm hsuf.isInfix
  have h3 : ¬ segV1 <:+ base := fun hsuf => hv hsuf.isInfix
  unfold build_full_url
  rw [hstrip]
  simp [h1, h2, h3]

/-- Evaluation on an endpoint that already ends in `/v1`: only the
`/chat/completions` part of the chat path is appended. -/
theorem build_full_url_on_v1 {e base : List Char}
    (hstrip : rstripSlash e = base ++ segV1) :
    build_full_url e chatPathV1 = base ++ chatPathV1 := by
  have h1 : ¬ segChat <:+ base ++ segV1 := by
    intro h
    rcases List.suffix_or_suffix_of_suffix h (List.suffix_append base segV1) with h2 | h2
    · exact absurd h2 (by decide)
    · exact absurd h2 (by decide)
  have h2 : ¬ segMessages <:+ base ++ segV1 := by
    intro h
    rcases List.suffix_or_suffix_of_suffix h (List.suffix_append base segV1) with h2 | h2
    · exact absurd h2 (by decide)
    · exact absurd h2 (by decide)
  have h3 : segV1 <:+ base ++ segV1 := List.suffix_append base segV1
  have h4 : segV1 <+: chatPathV1 := by decide
  have h5 : segV1 ++ chatPathV1.drop 3 = chatPathV1 := by decide
  unfold build_full_url
  rw [hstrip]
  simp only [decide_eq_true_eq, decide_eq_false h1, decide_eq_false h2,
    decide_eq_true h3, decide_eq_true h4, Bool.false_or, Bool.or_false,
    Bool.false_eq_true, if_false, if_true]
  rw [List.append_assoc, h5]

/-- Evaluation on an endpoint that already ends in the full chat path: it
is returned as is. -/
theorem build_full_url_on_chat {e base : List Char}
    (hstrip : rstripSlash e = base ++ chatPathV1) :
    build_full_url e chatPathV1 = base ++ chatPathV1 := by
  have h1 : segChat <:+ base ++ chatPathV1 :=
    (show segChat <:+ chatPathV1 by decide).trans (List.suffix_append base chatPathV1)
  unfold build_full_url
  rw [hstrip]
  simp [h1]

/-- Evaluation on an endpoint that ends in `/messages`: it is returned as
is. -/
theorem build_full_url_on_messages {e base : List Char}
    (hstrip : rstripSlash e = base ++ segMessages) :
    build_full_url e chatPathV1 = base ++ segMessages := by
  have h1 : segMessages <:+ base ++ segMessages := List.suffix_append base segMessages
  unfold build_full_url
  rw [hstrip]
  simp [h1]

/-- `base ++ "/v1/chat/completions"` contains no `/v1/v1` when `base`
contains no `/v1`. -/
theorem no_dupV1_chat {base : List Char} (hv : ¬ segV1 <:+: base) :
    ¬ dupV1 <:+: base ++ chatPathV1 :=
  not_infix_append_of hv (by decide) (by decide) (by decide)

/-- `base ++ "/v1/chat/completions"` contains no duplicated
`/chat/completions` when `base` contains no `/chat/completions`. -/
theorem no_dupChat_chat {base : List Char} (hc : ¬ segChat <:+: base) :
    ¬ dupChat <:+: base ++ chatPathV1 :=
  not_infix_append_of hc (by decide) (by decide) (by decide)

/-- `base ++ "/messages"` contains no `/v1/v1` when `base` contains no
`/v1`. -/
theorem no_dupV1_messages {base : List Char} (hv : ¬ segV1 <:+: base) :
    ¬ dupV1 <:+: base ++ segMessages :=
  not_infix_append_of hv (by decide) (by decide) (by decide)

/-- `base ++ "/messages"` contains no duplicated `/chat/completions` when
`base` contains no `/chat/completions`. -/
theorem no_dupChat_messages {base : List Char} (hc : ¬ segChat <:+: base) :
    ¬ dupChat <:+: base ++ segMessages :=
  not_infix_append_of hc (by decide) (by decide) (by decide)

/-- C7: for every endpoint of the shapes `base`, `base+/v1`,
`base+/v1/chat/completions` and `base+/messages` (with or without a
trailing slash, over any base URL that itself contains none of the
segments `/v1`, `/chat/completions`, `/messages` and has no trailing
slash), `build_full_url` with the chat path `/v1/chat/completions`
produces a URL containing no duplicated `/v1` segment (`/v1/v1`) and no
duplicated `/chat/completions` suffix. -/
theorem build_full_url_no_duplicates (base : List Char)
    (hbase : rstripSlash base = base)
    (hv : ¬ segV1 <:+: base) (hc : ¬ segChat <:+: base)
    (hm : ¬ segMessages <:+: base) :
    ∀ e ∈ endpointShapes base,
      ¬ dupV1 <:+: build_full_url e chatPathV1 ∧
      ¬ dupChat <:+: build_full_url e chatPathV1 := by
  have hv1last : segV1.getLast? = some '1' := by decide
  have hchatlast : chatPathV1.getLast? = some 's' := by decide
  have hmsglast : segMessages.getLast? = some 's' := by decide
  have e1 : build_full_url base chatPathV1 = base ++ chatPathV1 :=
    build_full_url_on_base hbase hv hc hm
  have e2 : build_full_url (base ++ ['/']) chatPathV1 = base ++ chatPathV1 :=
    build_full_url_on_base (by rw [rstripSlash_append_slash, hbase]) hv hc hm
  have e3 : build_full_url (base ++ segV1) chatPathV1 = base ++ chatPathV1 :=
    build_full_url_on_v1 (rstripSlash_append_eq_self '1' hv1last (by decide))
  have e4 : build_full_url (base ++ segV1 ++ ['/']) chatPathV1 = base ++ chatPathV1 :=
    build_full_url_on_v1
      (by rw [rstripSlash_append_slash]
          exact rstripSlash_append_eq_self '1' hv1last (by decide))
  have e5 : build_full_url (base ++ chatPathV1) chatPathV1 = base ++ chatPathV1 :=
    build_full_url_on_chat (rstripSlash_append_eq_self 's' hchatlast (by decide))
  have e6 : build_full_url (base ++ chatPathV1 ++ ['/']) chatPathV1 = base ++ chatPathV1 :=
    build_full_url_on_chat
      (by rw [rstripSlash_append_slash]
          exact rstripSlash_append_eq_self 's' hchatlast (by decide))
  have e7 : build_full_url (base ++ segMessages) chatPathV1 = base ++ segMessages :=
    build_full_url_on_messages (rstripSlash_append_eq_self 's' hmsglast (by decide))
  have e8 : build_full_url (base ++ segMessages ++ ['/']) chatPathV1 = base ++ segMessages :=
    build_full_url_on_messages
      (by rw [rstripSlash_append_slash]
          exact rstripSlash_append_eq_self 's' hmsglast (by decide))
  intro e he
  simp only [endpointShapes, List.mem_cons, List.not_mem_nil, or_false] at he
  rcases he with rfl | rfl | rfl | rfl | rfl | rfl | rfl | rfl
  · rw [e1]; exact ⟨no_dupV1_chat hv, no_dupChat_chat hc⟩
  · rw [e2]; exact ⟨no_dupV1_chat hv, no_dupChat_chat hc⟩
  · rw [e3]; exact ⟨no_dupV1_chat hv, no_dupChat_chat hc⟩
  · rw [e4]; exact ⟨no_dupV1_chat hv, no_dupChat_chat hc⟩
  · rw [e5]; exact ⟨no_dupV1_chat hv, no_dupChat_chat hc⟩
  · rw [e6]; exact ⟨no_dupV1_chat hv, no_dupChat_chat hc⟩
  · rw [e7]; exact ⟨no_dupV1_messages hv, no_dupChat_messages hc⟩
  · rw [e8]; exact ⟨no_dupV1_messages hv, no_dupChat_messages hc⟩

/-- Witness for C7: a concrete base URL satisfying the hypotheses, and the
no-duplication conclusion at the `base+/v1` shape produced by the theorem. -/
theorem build_full_url_no_duplicates_witness :
    (rstripSlash "http://e".toList = "http://e".toList ∧
      ¬ segV1 <:+: "http://e".toList ∧ ¬ segChat <:+: "http://e".toList ∧
      ¬ segMessages <:+: "http://e".toList) ∧
    (¬ dupV1 <:+: build_full_url ("http://e".toList ++ segV1) chatPathV1 ∧
      ¬ dupChat <:+: build_full_url ("http://e".toList ++ segV1) chatPathV1) :=
  ⟨by decide,
   build_full_url_no_duplicates "http://e".toList (by decide) (by decide)
     (by decide) (by decide) ("http://e".toList ++ segV1) (by decide)⟩

/-- C10: with guardrails enabled, `scan_input` issues no scan request and
leaves the messages unchanged whenever the messages list is empty, the last
message's role is not `"user"`, or the last message's content is empty —
regardless of what any scan would have returned, and even when earlier
messages have role `"user"`. -/
theorem scan_input_skips_without_last_user_text
    (messages : List Message) (cfg : GuardrailCfg) (scanResp : ScanResult)
    (hEnabled : cfg.enabled = true ∨ cfg.pii_enabled = true)
    (hSkip : messages = [] ∨
      ∃ m, messages.getLast? = some m ∧ (m.role ≠ "user" ∨ m.content = "")) :
    scan_input messages cfg scanResp = .ok (messages, false) := by
  have hcond : (!cfg.enabled && !cfg.pii_enabled) = false := by
    rcases hEnabled with h | h <;> simp [h]
  rcases hSkip with rfl | ⟨m, hm, hrest⟩
  · simp [scan_input, hcond]
  · rcases hrest with h2 | h2
    · simp [scan_input, hcond, hm, h2]
    · simp [scan_input, hcond, hm, h2]

/-- Witness for C10: guardrails enabled and a scan reply that would block,
but the last message is from the assistant (an earlier one is from the
user), so no scan happens and the messages pass through unchanged. -/
theorem scan_input_skips_without_last_user_text_witness :
    (({ enabled := true } : GuardrailCfg).enabled = true ∨
      ({ enabled := true } : GuardrailCfg).pii_enabled = true) ∧
    scan_input [{ role := "user", content := "hello" },
                { role := "assistant", content := "hi" }]
      { enabled := true }
      { is_valid := false, violations := [{ scanner := "Toxicity" }] } =
      .ok ([{ role := "user", content := "hello" },
            { role := "assistant", content := "hi" }], false) :=
  ⟨Or.inl rfl,
   scan_input_skips_without_last_user_text _ _ _ (Or.inl rfl)
     (Or.inr ⟨{ role := "assistant", content := "hi" }, rfl, Or.inl (by decide)⟩)⟩

/-- A blocking input scan: guardrails enabled, the last message is a
non-empty user message, and the scan reply is invalid with at least one
violation — `scan_input` raises the 400 built from the first violation's
scanner through the friendly-message map. -/
theorem scan_input_blocks
    (messages : List Message) (cfg : GuardrailCfg) (scanResp : ScanResult)
    (m : Message) (v : Violation) (vs : List Violation)
    (hEnabled : cfg.enabled = true ∨ cfg.pii_enabled = true)
    (hm : messages.getLast? = some m) (hrole : m.role = "user")
    (hcontent : m.content ≠ "")
    (hvalid : scanResp.is_valid = false)
    (hviol : scanResp.violations = v :: vs) :
    scan_input messages cfg scanResp =
      .error { status := 400, error := some "guardrail_violation",
               message := friendlyMessage v.scanner } := by
  have hcond : (!cfg.enabled && !cfg.pii_enabled) = false := by
    rcases hEnabled with h | h <;> simp [h]
  simp [scan_input, hcond, hm, hrole, hcontent, hvalid, hviol]

/-- C1: when the input scan of a completion request comes back with
`is_valid = false` (and at least one reported violation), the orchestrator
answers 400 `guardrail_violation` with the first violation's scanner name
sent through the friendly-message map (default
`"Safety violation found: <scanner>"`), and the upstream provider is never
called. -/
theorem handle_completion_guardrail_blocks_upstream
    (req : CompletionRequest) (context : Context)
    (rateAllowed : Bool) (waitTime : ℚ) (scanResp : ScanResult)
    (promptSvc : Except Unit (List Message))
    (m : Message) (v : Violation) (vs : List Violation)
    (hmodel : pyTruthy req.model = true) (hmsgs : req.messages ≠ [])
    (hvalid : context.valid = true)
    (hrate : (match context.rate_limit_config with
              | some rl => rl.enabled && rl.rpm > 0 && !rateAllowed
              | none => false) = false)
    (hEnabled : (context.guardrail_config.getD {}).enabled = true ∨
      (context.guardrail_config.getD {}).pii_enabled = true)
    (hm : req.messages.getLast? = some m) (hrole : m.role = "user")
    (hcontent : m.content ≠ "")
    (hscan : scanResp.is_valid = false)
    (hviol : scanResp.violations = v :: vs) :
    handle_completion req context rateAllowed waitTime true scanResp promptSvc =
      (.error { status := 400, error := some "guardrail_violation",
                message := friendlyMessage v.scanner }, false) := by
  have hblock := scan_input_blocks req.messages (context.guardrail_config.getD {})
    scanResp m v vs hEnabled hm hrole hcontent hscan hviol
  simp [handle_completion, hmodel, hmsgs, resolve_context, hvalid, hrate, hblock]

/-- Witness for C1: a Toxicity violation on a one-message request — the
400 carries "Toxicity found" and the upstream flag is false. -/
theorem handle_completion_guardrail_blocks_upstream_witness :
    handle_completion
      { model := some "chat", messages := [{ role := "user", content := "bad" }] }
      { valid := true, deployment := { endpoint := some "http://e/v1" },
        guardrail_config := some { enabled := true } }
      true 0 true
      { is_valid := false, violations := [{ scanner := "Toxicity" }] }
      (.ok []) =
      (.error { status := 400, error := some "guardrail_violation",
                message := "Toxicity found" }, false) :=
  handle_completion_guardrail_blocks_upstream _ _ _ _ _ _
    { role := "user", content := "bad" } { scanner := "Toxicity" } []
    (by decide) (by decide) rfl rfl (Or.inl rfl) rfl rfl (by decide) rfl rfl

/-- Counterexample for C9: at `wait_time = 1/2` (non-negative,
non-integral) the rejected request carries `Retry-After: 1` — the code's
`str(int(wait_time) + 1)` — while `ceil(wait_time) + 1 = 2`, so the
claimed header value `ceil(wait_time)+1` is wrong. -/
theorem handle_completion_retry_after_not_ceil :
    (handle_completion
        { model := some "chat", messages := [{ role := "user", content := "hi" }] }
        { valid := true, deployment := { endpoint := some "http://e" },
          rate_limit_config := some { enabled := true, rpm := 1 } }
        false (1 / 2) true {} (.ok [])).1 =
      .error { status := 429, message := "Rate limit exceeded. Limit: 1 RPM.",
               headers := [("Retry-After", "1")] } ∧
    (0 ≤ ((1 : ℚ) / 2) ∧ (⌈((1 : ℚ) / 2)⌉ + 1 : ℤ) = 2) ∧
    ("1" : String) ≠ "2" := by
  have hceil : (⌈((1 : ℚ) / 2)⌉ : ℤ) = 1 := by
    rw [Int.ceil_eq_iff]; norm_num
  have hnn : (0 : ℚ) ≤ 1 / 2 := by norm_num
  have hfl : pyTrunc ((1 : ℚ) / 2) = 0 := by
    rw [pyTrunc, if_pos hnn]; norm_num
  refine ⟨?_, ⟨hnn, by omega⟩, by decide⟩
  have hfl2 : pyTrunc ((2 : ℚ)⁻¹) = 0 := by rw [← one_div]; exact hfl
  simp [handle_completion, resolve_context, hfl, pyTruthy]
  rw [hfl2]
  exact ⟨by decide, by decide⟩

/-- C9 amended: a request rejected by the per-deployment token-bucket rate
limit gets a 429 whose `Retry-After` header is `trunc(wait_time) + 1`
(i.e. `⌊wait_time⌋ + 1` for the non-negative wait times the limiter
returns) — which agrees with `ceil(wait_time) + 1` only at integral wait
times. -/
theorem handle_completion_rate_limited_retry_after
    (req : CompletionRequest) (context : Context)
    (waitTime : ℚ) (quotaOk : Bool) (scanResp : ScanResult)
    (promptSvc : Except Unit (List Message)) (rl : RateLimitCfg)
    (hmodel : pyTruthy req.model = true) (hmsgs : req.messages ≠ [])
    (hvalid : context.valid = true)
    (hrl : context.rate_limit_config = some rl)
    (hen : rl.enabled = true) (hrpm : rl.rpm > 0)
    (hw : 0 ≤ waitTime) :
    handle_completion req context false waitTime quotaOk scanResp promptSvc =
      (.error { status := 429,
                message := "Rate limit exceeded. Limit: " ++ toString rl.rpm ++ " RPM.",
                headers := [("Retry-After", toString (⌊waitTime⌋ + 1))] }, false) := by
  simp [handle_completion, hmodel, hmsgs, resolve_context, hvalid, hrl, hen, hrpm,
    pyTrunc, hw]

/-- Witness for C9's amended theorem: `wait_time = 3/2` yields
`Retry-After: 2` (`⌊3/2⌋ + 1`). -/
theorem handle_completion_rate_limited_retry_after_witness :
    (0 ≤ ((3 : ℚ) / 2)) ∧
    handle_completion
        { model := some "chat", messages := [{ role := "user", content := "hi" }] }
        { valid := true, deployment := { endpoint := some "http://e" },
          rate_limit_config := some { enabled := true, rpm := 1 } }
        false (3 / 2) true {} (.ok []) =
      (.error { status := 429,
                message := "Rate limit exceeded. Limit: " ++ toString (1 : ℤ) ++ " RPM.",
                headers := [("Retry-After", toString ((⌊(3 : ℚ) / 2⌋ : ℤ) + 1))] },
       false) :=
  ⟨by norm_num,
   handle_completion_rate_limited_retry_after
     { model := some "chat", messages := [{ role := "user", content := "hi" }] }
     { valid := true, deployment := { endpoint := some "http://e" },
       rate_limit_config := some { enabled := true, rpm := 1 } }
     (3 / 2) true {} (.ok []) { enabled := true, rpm := 1 }
     (by decide) (by decide) rfl rfl rfl (by decide) (by norm_num)⟩

/-- Counterexample for C4: an unknown model name comes back from the
resolver as `valid=false` and the gateway maps it — like every other
resolution failure — to HTTP 401, not to the claimed 404. -/
theorem resolve_failure_status_cex :
    gatewayResolveStatus (some .modelNotFound) = some 401 ∧
    gatewayResolveStatus (some .keyModelMismatch) = some 401 ∧
    (401 : Nat) ≠ 404 ∧ (401 : Nat) ≠ 403 := by
  refine ⟨rfl, rfl, by decide, by decide⟩

/-- C4 amended: every context-resolution failure — invalid key, key/model
mismatch, or unknown model — is reported by the resolver as
`{valid:false, error}` and surfaces from the gateway as HTTP 401 carrying
the resolver's error message; 403 and 404 are never produced. -/
theorem resolve_failures_all_401 (f : ResolveFailure) :
    resolve_context (resolve_inference_context (some f)) =
      .error { status := 401, message := ((policyResolve (some f)).2).getD "Unauthorized" } ∧
    gatewayResolveStatus (some f) = some 401 := by
  cases f <;> exact ⟨rfl, rfl⟩

/-- Counterexample for C3: `request_delete` on a `STOPPED` deployment is
not a no-op — it rewrites the state to `TERMINATING`, enqueues the outbox
event and publishes `model.terminate.requested`. -/
theorem request_delete_stopped_not_noop :
    request_delete { deployments := [(1, { state := "STOPPED" })] } 1 =
      .ok { deployments := [(1, { state := "TERMINATING" })],
            outbox := [{ aggregate_id := 1, event_type := "model.deployment.terminate" }],
            published := [{ topic := "model.terminate.requested", deployment_id := 1 }] } ∧
    ({ deployments := [(1, { state := "TERMINATING" })],
       outbox := [{ aggregate_id := 1, event_type := "model.deployment.terminate" }],
       published := [{ topic := "model.terminate.requested", deployment_id := 1 }] } :
        CtrlState) ≠
      { deployments := [(1, { state := "STOPPED" })] } := by
  exact ⟨rfl, by decide⟩

/-- C3 amended: `request_delete` is a no-op exactly for deployments in
state `TERMINATED` or `TERMINATING`; for a deployment in any other state —
including `STOPPED` — it sets `TERMINATING`, enqueues the outbox event and
publishes `model.terminate.requested`. -/
theorem request_delete_noop_only_when_terminating_or_terminated
    (st : CtrlState) (id : Nat) (d : DeploymentRow)
    (hd : getDeployment st id = some d) :
    (d.state = "TERMINATED" ∨ d.state = "TERMINATING" →
      request_delete st id = .ok st) ∧
    (d.state ≠ "TERMINATED" → d.state ≠ "TERMINATING" →
      request_delete st id = .ok
        { deployments := (updateStateRow st id "TERMINATING").deployments,
          outbox := st.outbox ++
            [{ aggregate_id := id, event_type := "model.deployment.terminate" }],
          published := st.published ++
            [{ topic := "model.terminate.requested", deployment_id := id }] }) := by
  constructor
  · intro h
    simp [request_delete, hd, h]
  · intro h1 h2
    simp [request_delete, hd, h1, h2, updateStateRow]

/-- Witness for C3's amended theorem, at a `RUNNING` deployment. -/
theorem request_delete_noop_only_when_terminating_or_terminated_witness :
    getDeployment { deployments := [(7, { state := "RUNNING" })] } 7 =
      some { state := "RUNNING" } ∧
    request_delete { deployments := [(7, { state := "RUNNING" })] } 7 =
      .ok { deployments :=
              (updateStateRow { deployments := [(7, { state := "RUNNING" })] } 7
                "TERMINATING").deployments,
            outbox := [{ aggregate_id := 7, event_type := "model.deployment.terminate" }],
            published := [{ topic := "model.terminate.requested", deployment_id := 7 }] } :=
  ⟨rfl,
   (request_delete_noop_only_when_terminating_or_terminated
     { deployments := [(7, { state := "RUNNING" })] } 7 { state := "RUNNING" } rfl).2
     (by decide) (by decide)⟩

/-- C5: `deploy_model` is transactional — either it fails and leaves the
state untouched (no row, no outbox entry, no publication), or it appends
exactly the deployment row (initial state `PENDING`, `RUNNING` for
`workload_type = external`), the `model.deployment.requested` outbox entry,
and the `model.deploy.requested` bus publication if and only if the
workload is not `external`. -/
theorem deploy_model_transactional (st : CtrlState) (id : Nat)
    (wt : String) (ep : Option String) (poolOk failCreate failEnqueue failPublish : Bool) :
    deploy_model st id wt ep poolOk failCreate failEnqueue failPublish = (st, none) ∨
    deploy_model st id wt ep poolOk failCreate failEnqueue failPublish =
      ({ deployments := st.deployments ++
            [(id, { state := if wt = "external" then "RUNNING" else "PENDING",
                    endpoint := ep })],
         outbox := st.outbox ++
            [{ aggregate_id := id, event_type := "model.deployment.requested" }],
         published := st.published ++
            (if wt = "external" then []
             else [{ topic := "model.deploy.requested", deployment_id := id }]) },
       some id) := by
  by_cases hpool : poolOk
  · by_cases h1 : failCreate
    · left; simp [deploy_model, hpool, h1]
    · by_cases h2 : failEnqueue
      · left; simp [deploy_model, hpool, h1, h2]
      · by_cases hwt : wt = "external"
        · right; simp [deploy_model, hpool, h1, h2, hwt]
        · by_cases h3 : failPublish
          · left; simp [deploy_model, hpool, h1, h2, hwt, h3]
          · right; simp [deploy_model, hpool, h1, h2, hwt, h3]
  · left; simp [deploy_model, hpool]

/-- C6: a heartbeat reporting `state=terminated` for a node of an ephemeral
provider whose linked deployment is non-terminal moves the deployment to
`FAILED` when the time since creation is below the threshold and to
`STOPPED` otherwise — never to `TERMINATED`. -/
theorem heartbeat_ephemeral_terminated
    (payloadState deploymentState : String) (created now : ℚ) (threshold : ℤ)
    (hps : pyLower payloadState = "terminated")
    (h1 : deploymentState ≠ "TERMINATED") (h2 : deploymentState ≠ "FAILED")
    (h3 : deploymentState ≠ "STOPPED") :
    heartbeatSyncState payloadState (some true) deploymentState (some created)
        now threshold =
      some (if now - created < (threshold : ℚ) then "FAILED" else "STOPPED") ∧
    heartbeatSyncState payloadState (some true) deploymentState (some created)
        now threshold ≠ some "TERMINATED" := by
  by_cases hlt : now - created < (threshold : ℚ)
  · constructor <;> simp [heartbeatSyncState, hps, h1, h2, h3, hlt]
  · constructor <;> simp [heartbeatSyncState, hps, h1, h2, h3, hlt]

/-- Witness for C6: an ephemeral termination 5 minutes into a RUNNING
deployment, against the default 10-minute threshold, goes to `FAILED`. -/
theorem heartbeat_ephemeral_terminated_witness :
    (pyLower "terminated" = "terminated" ∧ ("RUNNING" : String) ≠ "TERMINATED" ∧
      ("RUNNING" : String) ≠ "FAILED" ∧ ("RUNNING" : String) ≠ "STOPPED") ∧
    heartbeatSyncState "terminated" (some true) "RUNNING" (some 0) 5
        EPHEMERAL_FAILURE_THRESHOLD_MINUTES =
      some (if (5 : ℚ) - 0 < ((EPHEMERAL_FAILURE_THRESHOLD_MINUTES : ℤ) : ℚ)
            then "FAILED" else "STOPPED") ∧
    heartbeatSyncState "terminated" (some true) "RUNNING" (some 0) 5
        EPHEMERAL_FAILURE_THRESHOLD_MINUTES ≠ some "TERMINATED" :=
  ⟨⟨by decide, by decide, by decide, by decide⟩,
   (heartbeat_ephemeral_terminated "terminated" "RUNNING" 0 5
      EPHEMERAL_FAILURE_THRESHOLD_MINUTES (by decide) (by decide) (by decide)
      (by decide)).1,
   (heartbeat_ephemeral_terminated "terminated" "RUNNING" 0 5
      EPHEMERAL_FAILURE_THRESHOLD_MINUTES (by decide) (by decide) (by decide)
      (by decide)).2⟩

/-- Counterexample for C2: when `wait_for_ready` yields no URL and the
node spec carries none either, the provisioning loop still registers the
node and runs `update_state(id, "RUNNING")` with no `update_endpoint` call
at all, leaving a RUNNING deployment with a null endpoint. -/
theorem worker_running_without_endpoint_cex :
    handle_deploy_requested (some { state := "PENDING" }) true
        { candidates := fun _ => false } =
      [.updateState "PROVISIONING", .registerNode, .updateState "RUNNING",
       .attachRuntime] ∧
    WorkerAction.updateState "RUNNING" ∈
      handle_deploy_requested (some { state := "PENDING" }) true
        { candidates := fun _ => false } ∧
    (handle_deploy_requested (some { state := "PENDING" }) true
        { candidates := fun _ => false }).filter isEndpointUpdate = [] ∧
    (applyActions { state := "PENDING" }
        (handle_deploy_requested (some { state := "PENDING" }) true
          { candidates := fun _ => false })).state = "RUNNING" ∧
    (applyActions { state := "PENDING" }
        (handle_deploy_requested (some { state := "PENDING" }) true
          { candidates := fun _ => false })).endpoint = none := by
  refine ⟨rfl, ?_, rfl, rfl, rfl⟩
  rw [show handle_deploy_requested (some { state := "PENDING" }) true
        { candidates := fun _ => false } =
      [.updateState "PROVISIONING", .registerNode, .updateState "RUNNING",
       .attachRuntime] from rfl]
  simp

/-- C2 amended: on the ephemeral provisioning path the worker always ends
with `update_state(id, "RUNNING")` after registering the node —
`update_endpoint` precedes it exactly when the effective expose URL (wait
result or node-spec fallback) is truthy, and with no URL the deployment
reaches `RUNNING` with its endpoint untouched (null if it was null). -/
theorem worker_sets_running_regardless_of_endpoint
    (env : ProvisionEnv) (d : DeploymentRow)
    (hstate : d.state = "PENDING")
    (hcand : env.candidates 0 = false)
    (hjob : env.metadataHasJob = true)
    (hsim : env.nodeSpec.simulation = false)
    (hsafety : env.stateAtSafetyCheck = some "PROVISIONING")
    (heph : env.isEphemeral = true)
    (hnode : env.nodeIdReturned = true) :
    handle_deploy_requested (some d) true env =
      [WorkerAction.updateState "PROVISIONING"] ++
      (if pyTruthy (effectiveExposeUrl env.waitUrl env.nodeSpec.expose_url) then
        [WorkerAction.updateEndpoint
          ((effectiveExposeUrl env.waitUrl env.nodeSpec.expose_url).getD "")]
       else []) ++
      [WorkerAction.registerNode, WorkerAction.updateState "RUNNING",
       WorkerAction.attachRuntime] ∧
    (applyActions d (handle_deploy_requested (some d) true env)).state = "RUNNING" ∧
    (pyTruthy (effectiveExposeUrl env.waitUrl env.nodeSpec.expose_url) = false →
      (applyActions d (handle_deploy_requested (some d) true env)).endpoint =
        d.endpoint) := by
  have key : handle_deploy_requested (some d) true env =
      [WorkerAction.updateState "PROVISIONING"] ++
      (if pyTruthy (effectiveExposeUrl env.waitUrl env.nodeSpec.expose_url) then
        [WorkerAction.updateEndpoint
          ((effectiveExposeUrl env.waitUrl env.nodeSpec.expose_url).getD "")]
       else []) ++
      [WorkerAction.registerNode, WorkerAction.updateState "RUNNING",
       WorkerAction.attachRuntime] := by
    by_cases hurl : pyTruthy (effectiveExposeUrl env.waitUrl env.nodeSpec.expose_url) <;>
      simp [handle_deploy_requested, provisionAttempt, MAX_PROVISION_RETRIES,
        hstate, hcand, hjob, hsim, hsafety, heph, hnode, hurl]
  refine ⟨key, ?_, ?_⟩
  · rw [key]
    by_cases hurl : pyTruthy (effectiveExposeUrl env.waitUrl env.nodeSpec.expose_url) <;>
      simp [hurl, applyActions, applyAction]
  · intro hurl
    rw [key]
    simp [hurl, applyActions, applyAction]

/-- Witness for C2's amended theorem: a readiness wait that did return a
URL leads to `update_endpoint` followed by `RUNNING`. -/
theorem worker_sets_running_regardless_of_endpoint_witness :
    (({ state := "PENDING" } : DeploymentRow).state = "PENDING" ∧
      (({ candidates := fun _ => false, waitUrl := some "http://n:9000" } :
         ProvisionEnv)).candidates 0 = false) ∧
    handle_deploy_requested (some { state := "PENDING" }) true
        { candidates := fun _ => false, waitUrl := some "http://n:9000" } =
      [WorkerAction.updateState "PROVISIONING"] ++
      (if pyTruthy (effectiveExposeUrl (some "http://n:9000") none) then
        [WorkerAction.updateEndpoint
          ((effectiveExposeUrl (some "http://n:9000") none).getD "")]
       else []) ++
      [WorkerAction.registerNode, WorkerAction.updateState "RUNNING",
       WorkerAction.attachRuntime] :=
  ⟨⟨rfl, rfl⟩,
   (worker_sets_running_regardless_of_endpoint
      { candidates := fun _ => false, waitUrl := some "http://n:9000" }
      { state := "PENDING" } rfl rfl rfl rfl rfl rfl rfl).1⟩

/-- Looking up the key just written returns the written count. -/
theorem lookupSem_setSem_self (l : List (String × Nat)) (k : String) (n : Nat) :
    lookupSem (setSem l k n) k = some n := by
  induction l with
  | nil => simp [setSem, lookupSem]
  | cons p rest ih =>
    by_cases h : p.1 = k <;> simp [setSem, lookupSem, h, ih]

/-- Writing one key leaves every other key's count unchanged. -/
theorem lookupSem_setSem_ne (l : List (String × Nat)) (k k' : String) (n : Nat)
    (h : k' ≠ k) : lookupSem (setSem l k n) k' = lookupSem l k' := by
  induction l with
  | nil =>
    simp [setSem, lookupSem]
    intro heq
    exact absurd heq.symm h
  | cons p rest ih =>
    by_cases h2 : p.1 = k
    · have hkk : ¬ (k = k') := fun hh => h hh.symm
      simp [setSem, lookupSem, h2, hkk]
    · by_cases h3 : p.1 = k'
      · simp [setSem, lookupSem, h2, h3, h]
      · simp [setSem, lookupSem, h2, h3, ih]

/-- C8: in the two-tier limiter, permits are acquired global-first then
per-deployment and released in reverse order (the event trace of any call
is a sublist of that canonical order), and any call that fails does so
with the 429 `Retry-After: 1` timeout error while restoring every
semaphore — the global count and the effective per-deployment counts after
the call equal those before it, so no permit leaks on the error path. -/
theorem limit_order_and_no_leak (cfg : LimiterCfg) (st : LimiterState)
    (key : String) (gTimeout dTimeout : Bool) :
    List.Sublist (limit cfg st key gTimeout dTimeout).2.2
      [LimitEvent.acquireGlobal, LimitEvent.acquireDeployment,
       LimitEvent.releaseDeployment, LimitEvent.releaseGlobal] ∧
    (∀ e, (limit cfg st key gTimeout dTimeout).1 = .error e →
      e = limiterTimeoutError ∧
      (limit cfg st key gTimeout dTimeout).2.1.globalAvail = st.globalAvail ∧
      ∀ k, effAvail cfg (limit cfg st key gTimeout dTimeout).2.1 k =
        effAvail cfg st k) := by
  obtain ⟨gOpt, davail⟩ := st
  cases gOpt with
  | some g =>
    by_cases hgt : (gTimeout || g == 0) = true
    · have hlim : limit cfg ⟨some g, davail⟩ key gTimeout dTimeout =
          (.error limiterTimeoutError, ⟨some g, davail⟩, []) := by
        simp [limit, hgt]
      rw [hlim]
      refine ⟨List.nil_sublist _, fun e he => ?_⟩
      injection he with he1
      exact ⟨he1.symm, rfl, fun k => rfl⟩
    · have hg : g ≠ 0 := by intro h0; rw [h0] at hgt; simp at hgt
      have hgg : g - 1 + 1 = g := by omega
      by_cases hper : cfg.upstream_per_deployment_max_in_flight ≤ 0
      · have hlim : limit cfg ⟨some g, davail⟩ key gTimeout dTimeout =
            (.ok (), ⟨some (g - 1 + 1), davail⟩,
             [.acquireGlobal, .releaseGlobal]) := by
          simp [limit, hgt, getOrCreateSem, hper]
        rw [hlim]
        refine ⟨?_, fun e he => Except.noConfusion he⟩
        show List.Sublist [LimitEvent.acquireGlobal, LimitEvent.releaseGlobal]
          [LimitEvent.acquireGlobal, LimitEvent.acquireDeployment,
           LimitEvent.releaseDeployment, LimitEvent.releaseGlobal]
        decide
      · cases hlook : lookupSem davail key with
        | some n =>
          by_cases hdt : (dTimeout || n == 0) = true
          · have hlim : limit cfg ⟨some g, davail⟩ key gTimeout dTimeout =
                (.error limiterTimeoutError, ⟨some (g - 1 + 1), davail⟩,
                 [.acquireGlobal]) := by
              simp [limit, hgt, getOrCreateSem, hper, hlook, hdt]
            rw [hlim]
            refine ⟨?_, fun e he => ?_⟩
            · show List.Sublist [LimitEvent.acquireGlobal]
                [LimitEvent.acquireGlobal, LimitEvent.acquireDeployment,
                 LimitEvent.releaseDeployment, LimitEvent.releaseGlobal]
              decide
            · injection he with he1
              exact ⟨he1.symm, by simp [hgg], fun k => rfl⟩
          · have hlim : limit cfg ⟨some g, davail⟩ key gTimeout dTimeout =
                (.ok (), ⟨some (g - 1 + 1),
                  setSem (setSem davail key (n - 1)) key n⟩,
                 [.acquireGlobal, .acquireDeployment, .releaseDeployment,
                  .releaseGlobal]) := by
              simp [limit, hgt, getOrCreateSem, hper, hlook, hdt]
            rw [hlim]
            exact ⟨List.Sublist.refl _, fun e he => Except.noConfusion he⟩
        | none =>
          by_cases hdt : (dTimeout ||
              cfg.upstream_per_deployment_max_in_flight.toNat == 0) = true
          · have hlim : limit cfg ⟨some g, davail⟩ key gTimeout dTimeout =
                (.error limiterTimeoutError,
                 ⟨some (g - 1 + 1),
                  setSem davail key cfg.upstream_per_deployment_max_in_flight.toNat⟩,
                 [.acquireGlobal]) := by
              simp [limit, hgt, getOrCreateSem, hper, hlook, hdt]
            rw [hlim]
            refine ⟨?_, fun e he => ?_⟩
            · show List.Sublist [LimitEvent.acquireGlobal]
                [LimitEvent.acquireGlobal, LimitEvent.acquireDeployment,
                 LimitEvent.releaseDeployment, LimitEvent.releaseGlobal]
              decide
            injection he with he1
            refine ⟨he1.symm, by simp [hgg], fun k => ?_⟩
            by_cases hk : k = key
            · subst hk
              simp [effAvail, lookupSem_setSem_self, hlook, not_le.mp hper]
            · simp [effAvail, lookupSem_setSem_ne davail key k _ hk]
          · have hlim : limit cfg ⟨some g, davail⟩ key gTimeout dTimeout =
                (.ok (), ⟨some (g - 1 + 1),
                  setSem (setSem
                    (setSem davail key cfg.upstream_per_deployment_max_in_flight.toNat)
                    key (cfg.upstream_per_deployment_max_in_flight.toNat - 1))
                    key cfg.upstream_per_deployment_max_in_flight.toNat⟩,
                 [.acquireGlobal, .acquireDeployment, .releaseDeployment,
                  .releaseGlobal]) := by
              simp [limit, hgt, getOrCreateSem, hper, hlook, hdt]
            rw [hlim]
            exact ⟨List.Sublist.refl _, fun e he => Except.noConfusion he⟩
  | none =>
    by_cases hper : cfg.upstream_per_deployment_max_in_flight ≤ 0
    · have hlim : limit cfg ⟨none, davail⟩ key gTimeout dTimeout =
          (.ok (), ⟨none, davail⟩, []) := by
        simp [limit, getOrCreateSem, hper]
      rw [hlim]
      exact ⟨List.nil_sublist _, fun e he => Except.noConfusion he⟩
    · cases hlook : lookupSem davail key with
      | some n =>
        by_cases hdt : (dTimeout || n == 0) = true
        · have hlim : limit cfg ⟨none, davail⟩ key gTimeout dTimeout =
              (.error limiterTimeoutError, ⟨none, davail⟩, []) := by
            simp [limit, getOrCreateSem, hper, hlook, hdt]
          rw [hlim]
          refine ⟨List.nil_sublist _, fun e he => ?_⟩
          injection he with he1
          exact ⟨he1.symm, rfl, fun k => rfl⟩
        · have hlim : limit cfg ⟨none, davail⟩ key gTimeout dTimeout =
              (.ok (), ⟨none, setSem (setSem davail key (n - 1)) key n⟩,
               [.acquireDeployment, .releaseDeployment]) := by
            simp [limit, getOrCreateSem, hper, hlook, hdt]
          rw [hlim]
          refine ⟨?_, fun e he => Except.noConfusion he⟩
          show List.Sublist [LimitEvent.acquireDeployment, LimitEvent.releaseDeployment]
            [LimitEvent.acquireGlobal, LimitEvent.acquireDeployment,
             LimitEvent.releaseDeployment, LimitEvent.releaseGlobal]
          decide
      | none =>
        by_cases hdt : (dTimeout ||
            cfg.upstream_per_deployment_max_in_flight.toNat == 0) = true
        · have hlim : limit cfg ⟨none, davail⟩ key gTimeout dTimeout =
              (.error limiterTimeoutError,
               ⟨none, setSem davail key cfg.upstream_per_deployment_max_in_flight.toNat⟩,
               []) := by
            simp [limit, getOrCreateSem, hper, hlook, hdt]
          rw [hlim]
          refine ⟨List.nil_sublist _, fun e he => ?_⟩
          injection he with he1
          refine ⟨he1.symm, rfl, fun k => ?_⟩
          by_cases hk : k = key
          · subst hk
            simp [effAvail, lookupSem_setSem_self, hlook, not_le.mp hper]
          · simp [effAvail, lookupSem_setSem_ne davail key k _ hk]
        · have hlim : limit cfg ⟨none, davail⟩ key gTimeout dTimeout =
              (.ok (), ⟨none,
                setSem (setSem
                  (setSem davail key cfg.upstream_per_deployment_max_in_flight.toNat)
                  key (cfg.upstream_per_deployment_max_in_flight.toNat - 1))
                  key cfg.upstream_per_deployment_max_in_flight.toNat⟩,
               [.acquireDeployment, .releaseDeployment]) := by
            simp [limit, getOrCreateSem, hper, hlook, hdt]
          rw [hlim]
          refine ⟨?_, fun e he => Except.noConfusion he⟩
          show List.Sublist [LimitEvent.acquireDeployment, LimitEvent.releaseDeployment]
            [LimitEvent.acquireGlobal, LimitEvent.acquireDeployment,
             LimitEvent.releaseDeployment, LimitEvent.releaseGlobal]
          decide

/-- Witness for C8: one permit globally and 64 per deployment, a timeout on
the per-deployment acquire — the call returns the 429 and the previously
acquired global permit is back afterwards. -/
theorem limit_order_and_no_leak_witness :
    List.Sublist
      (limit { upstream_global_max_in_flight := 1 }
        (initLimiterState { upstream_global_max_in_flight := 1 }) "d1" false true).2.2
      [LimitEvent.acquireGlobal, LimitEvent.acquireDeployment,
       LimitEvent.releaseDeployment, LimitEvent.releaseGlobal] ∧
    (limit { upstream_global_max_in_flight := 1 }
        (initLimiterState { upstream_global_max_in_flight := 1 }) "d1" false true).1 =
      .error limiterTimeoutError ∧
    (limit { upstream_global_max_in_flight := 1 }
        (initLimiterState { upstream_global_max_in_flight := 1 }) "d1" false
        true).2.1.globalAvail =
      (initLimiterState { upstream_global_max_in_flight := 1 }).globalAvail ∧
    effAvail { upstream_global_max_in_flight := 1 }
        (limit { upstream_global_max_in_flight := 1 }
          (initLimiterState { upstream_global_max_in_flight := 1 }) "d1" false
          true).2.1 "d1" =
      effAvail { upstream_global_max_in_flight := 1 }
        (initLimiterState { upstream_global_max_in_flight := 1 }) "d1" :=
  ⟨(limit_order_and_no_leak { upstream_global_max_in_flight := 1 }
      (initLimiterState { upstream_global_max_in_flight := 1 }) "d1" false true).1,
   rfl,
   ((limit_order_and_no_leak { upstream_global_max_in_flight := 1 }
      (initLimiterState { upstream_global_max_in_flight := 1 }) "d1" false true).2
     limiterTimeoutError rfl).2.1,
   ((limit_order_and_no_leak { upstream_global_max_in_flight := 1 }
      (initLimiterState { upstream_global_max_in_flight := 1 }) "d1" false true).2
     limiterTimeoutError rfl).2.2 "d1"⟩
